/-
  Verification development for the chat-relay + AI-memory service.

  Shallow embedding of the Python sources:
    app/models/schemas.py          (ChatHistory, ConnectionManager)
    app/api/endpoints/websocket.py (inbound message handling)
    app/services/summarizer.py     (summary / extraction / RAG skeletons)
    app/services/memory_service.py (memory distillation and upsert)
    app/api/endpoints/features.py  (summarize endpoint side effects)

  LLM collaborator calls are modelled as explicit oracle parameters
  (a fallible call that either fails or yields a parsed JSON object);
  `uuid.uuid4()` freshness is modelled by a counter threaded through the
  state; `uuid.uuid5(NAMESPACE_DNS, seed)` is a fixed deterministic
  function of its seed string, so point identities are modelled by the
  seed itself (two identities are equal iff their seeds are equal).
-/
import Mathlib

namespace ChatApp

/-- `ChatMessage` from app/models/schemas.py (lines 6-12): sender, message
text, timestamp, a message id generated at append time, and the
`ai_enabled` consent flag stamped at creation. -/
structure ChatMessage where
  sender : String
  message : String
  timestamp : String
  message_id : String
  ai_enabled : Bool
deriving DecidableEq, Repr

/-- `ChatHistory` state from app/models/schemas.py (lines 69-78):
the ordered message log, the per-user read cursors (`user_last_read`,
a dict queried with default 0), the global AI/consent flag and its
toggle history. `nextId` models the fresh-id source behind
`uuid.uuid4()` in `add_message`. -/
structure ChatHistory where
  messages : List ChatMessage
  user_last_read : List (String × Nat)
  ai_enabled : Bool
  ai_toggle_history : List (Bool × String)
  nextId : Nat
deriving DecidableEq, Repr

/-- Initial `ChatHistory()` (lines 72-78): empty log, no cursors, AI
enabled by default, empty toggle history. -/
def initHistory : ChatHistory :=
  { messages := [], user_last_read := [], ai_enabled := true
    ai_toggle_history := [], nextId := 0 }

/-- Dict assignment `self.user_last_read[username] = n`. -/
def setCursor (l : List (String × Nat)) (u : String) (n : Nat) :
    List (String × Nat) :=
  (u, n) :: l.filter (fun p => p.1 ≠ u)

/-- Dict read `self.user_last_read.get(username, 0)`. -/
def cursorOf (s : ChatHistory) (u : String) : Nat :=
  ((s.user_last_read.lookup u).getD 0)

/-- `ChatHistory.add_message` (lines 80-100): stamps `ai_enabled` from
the override when given, else from the current global flag; appends the
message and returns it together with the new state. -/
def add_message (s : ChatHistory) (sender message timestamp : String)
    (ai_enabled : Option Bool) : ChatHistory × ChatMessage :=
  let flag := ai_enabled.getD s.ai_enabled
  let msg : ChatMessage :=
    { sender := sender, message := message, timestamp := timestamp
      message_id := toString s.nextId, ai_enabled := flag }
  ({ s with messages := s.messages ++ [msg], nextId := s.nextId + 1 }, msg)

/-- `ChatHistory.set_ai_enabled` (lines 102-109): flips the global flag
and appends a toggle record; the message log is untouched. -/
def set_ai_enabled (s : ChatHistory) (enabled : Bool) (ts : String) :
    ChatHistory :=
  { s with ai_enabled := enabled
           ai_toggle_history := s.ai_toggle_history ++ [(enabled, ts)] }

/-- `ChatHistory.get_ai_enabled` (lines 111-113). -/
def get_ai_enabled (s : ChatHistory) : Bool := s.ai_enabled

/-- `ChatHistory.get_ai_enabled_messages` (lines 115-117): only the
messages created while AI/consent was enabled. -/
def get_ai_enabled_messages (s : ChatHistory) : List ChatMessage :=
  s.messages.filter (fun m => m.ai_enabled)

/-- `ChatHistory.get_all_messages_for_summary` (lines 119-121): every
message, the deliberate consent bypass used by the summary feature. -/
def get_all_messages_for_summary (s : ChatHistory) : List ChatMessage :=
  s.messages

/-- `ChatHistory.get_all_messages` (lines 123-125). -/
def get_all_messages (s : ChatHistory) : List ChatMessage :=
  s.messages

/-- `ChatHistory.get_unread_count` (lines 131-134). -/
def get_unread_count (s : ChatHistory) (username : String) : Nat :=
  s.messages.length - cursorOf s username

/-- `ChatHistory.mark_as_read` (lines 136-138). -/
def mark_as_read (s : ChatHistory) (username : String) : ChatHistory :=
  { s with user_last_read := setCursor s.user_last_read username s.messages.length }

/-- `ChatHistory.get_unread_messages` (lines 140-143). -/
def get_unread_messages (s : ChatHistory) (username : String) :
    List ChatMessage :=
  s.messages.drop (cursorOf s username)

/-- The operations a caller can perform on the shared `chat_history`
instance (append a message, toggle the AI/consent flag, mark a user's
cursor), used to quantify over arbitrary interleavings. -/
inductive Op where
  | addMessage (sender message timestamp : String) (override : Option Bool)
  | setAiEnabled (b : Bool) (ts : String)
  | markRead (u : String)
deriving DecidableEq, Repr

/-- One operation applied to the state. -/
def applyOp (s : ChatHistory) : Op → ChatHistory
  | Op.addMessage sender message ts ov => (add_message s sender message ts ov).1
  | Op.setAiEnabled b ts => set_ai_enabled s b ts
  | Op.markRead u => mark_as_read s u

/-- A whole sequence of operations applied in order. -/
def run (s : ChatHistory) (ops : List Op) : ChatHistory :=
  ops.foldl applyOp s

/-- Whether an operation appends a message to the log. -/
def isAppend : Op → Bool
  | Op.addMessage _ _ _ _ => true
  | _ => false

-- ---- basic lemmas about `run` ----

theorem run_nil (s : ChatHistory) : run s [] = s := rfl

theorem run_cons (s : ChatHistory) (op : Op) (ops : List Op) :
    run s (op :: ops) = run (applyOp s op) ops := rfl

/-- Every single operation leaves the existing prefix of the log intact:
the new message list is the old one plus a (possibly empty) suffix. -/
theorem applyOp_messages_prefix (s : ChatHistory) (op : Op) :
    ∃ t, (applyOp s op).messages = s.messages ++ t := by
  cases op with
  | addMessage sender message ts ov =>
      exact ⟨_, rfl⟩
  | setAiEnabled b ts => exact ⟨[], by simp [applyOp, set_ai_enabled]⟩
  | markRead u => exact ⟨[], by simp [applyOp, mark_as_read]⟩

/-- Runs only ever extend the log. -/
theorem run_messages_prefix (ops : List Op) (s : ChatHistory) :
    ∃ t, (run s ops).messages = s.messages ++ t := by
  induction ops generalizing s with
  | nil => exact ⟨[], by simp [run_nil]⟩
  | cons op ops ih =>
      obtain ⟨t₁, h₁⟩ := applyOp_messages_prefix s op
      obtain ⟨t₂, h₂⟩ := ih (applyOp s op)
      exact ⟨t₁ ++ t₂, by rw [run_cons, h₂, h₁, List.append_assoc]⟩

/-- An already-appended event is never altered by later operations:
position `i` of the log reads the same after any further run. -/
theorem run_getElem?_preserved (ops : List Op) (s : ChatHistory) (i : Nat)
    (hi : i < s.messages.length) :
    (run s ops).messages[i]? = s.messages[i]? := by
  obtain ⟨t, ht⟩ := run_messages_prefix ops s
  rw [ht, List.getElem?_append_left hi]

-- ---- cursor lemmas ----

theorem cursorOf_mark_as_read_self (s : ChatHistory) (u : String) :
    cursorOf (mark_as_read s u) u = s.messages.length := by
  simp [cursorOf, mark_as_read, setCursor, List.lookup]

theorem lookup_filter_ne {β : Type} (l : List (String × β)) (u v : String)
    (h : u ≠ v) :
    (l.filter (fun p => p.1 ≠ v)).lookup u = l.lookup u := by
  induction l with
  | nil => simp
  | cons p l ih =>
      obtain ⟨k, b⟩ := p
      by_cases hp : k = v
      · have hk : (u == k) = false := by
          rw [beq_eq_false_iff_ne]; exact fun hu => h (hu.trans hp)
        rw [List.filter_cons_of_neg (by simpa using hp), ih,
          List.lookup_cons, hk]
      · rw [List.filter_cons_of_pos (by simpa using hp),
          List.lookup_cons, List.lookup_cons, ih]

theorem cursorOf_mark_as_read_other (s : ChatHistory) (u v : String)
    (h : u ≠ v) :
    cursorOf (mark_as_read s v) u = cursorOf s u := by
  have hk : (u == v) = false := by simp [h]
  show ((((v, s.messages.length) ::
      s.user_last_read.filter (fun p => p.1 ≠ v)).lookup u).getD 0) = _
  rw [List.lookup_cons, hk, lookup_filter_ne s.user_last_read u v h]
  rfl

/-- Operations other than `mark_as_read u` leave `u`'s cursor alone. -/
theorem cursorOf_applyOp (s : ChatHistory) (op : Op) (u : String)
    (h : op ≠ Op.markRead u) :
    cursorOf (applyOp s op) u = cursorOf s u := by
  cases op with
  | addMessage sender message ts ov => rfl
  | setAiEnabled b ts => rfl
  | markRead v =>
      exact cursorOf_mark_as_read_other s u v (fun hu => h (by rw [hu]))

/-- A run containing no `markRead u` leaves `u`'s cursor alone. -/
theorem cursorOf_run (ops : List Op) (s : ChatHistory) (u : String)
    (h : Op.markRead u ∉ ops) :
    cursorOf (run s ops) u = cursorOf s u := by
  induction ops generalizing s with
  | nil => rfl
  | cons op ops ih =>
      rw [run_cons, ih (applyOp s op) (fun hm => h (List.mem_cons_of_mem _ hm)),
        cursorOf_applyOp s op u (fun he => h (he ▸ List.mem_cons_self _ _))]

/-- Each operation grows the log by exactly its number of appends. -/
theorem length_applyOp (s : ChatHistory) (op : Op) :
    (applyOp s op).messages.length
      = s.messages.length + (if isAppend op then 1 else 0) := by
  cases op with
  | addMessage sender message ts ov => simp [applyOp, add_message, isAppend]
  | setAiEnabled b ts => simp [applyOp, set_ai_enabled, isAppend]
  | markRead u => simp [applyOp, mark_as_read, isAppend]

/-- A run grows the log by exactly its number of append operations. -/
theorem length_run (ops : List Op) (s : ChatHistory) :
    (run s ops).messages.length
      = s.messages.length + (ops.countP isAppend) := by
  induction ops generalizing s with
  | nil => simp [run_nil]
  | cons op ops ih =>
      rw [run_cons, ih, length_applyOp]
      by_cases h : isAppend op = true <;> (simp [List.countP_cons, h]; try omega)

/-- The summarize endpoint, from app/api/endpoints/features.py
(`summarize_chat`, lines 370-404) and likewise app/api/routes/chat.py
(lines 476-501): with a username it summarizes that user's unread
messages (falling back to the whole log when none are unread) and then
marks the user as read; without a username it summarizes the whole log
and touches no cursor.  Returns the message slice handed to the
summarizer together with the post-call history state. -/
def summarizeEndpoint (username : Option String) (s : ChatHistory) :
    List ChatMessage × ChatHistory :=
  match username with
  | some u =>
      let msgs :=
        if get_unread_messages s u ≠ [] then get_unread_messages s u
        else get_all_messages_for_summary s
      (msgs, mark_as_read s u)
  | none => (get_all_messages_for_summary s, s)

/-- Claim C1: consent stamping is a snapshot, never retroactive.  For
every history `pre` of operations, a message appended (without
override) while the global consent flag has some value is stamped with
exactly that value; after any further operations `post` (including
`set_ai_enabled` toggles) the appended event still sits unchanged at
its position in the log; `get_ai_enabled_messages` returns exactly the
events stamped `true`, and `get_all_messages_for_summary` returns every
event. -/
theorem c1_consent_snapshot (pre post : List Op) (sender body ts : String) :
    let s := run initHistory pre
    let step := add_message s sender body ts none
    let final := run step.1 post
    step.2.ai_enabled = get_ai_enabled s
    ∧ final.messages[s.messages.length]? = some step.2
    ∧ (∀ m, m ∈ get_ai_enabled_messages final
        ↔ m ∈ final.messages ∧ m.ai_enabled = true)
    ∧ get_all_messages_for_summary final = final.messages := by
  intro s step final
  refine ⟨rfl, ?_, ?_, rfl⟩
  · have hstep : step.1.messages = s.messages ++ [step.2] := rfl
    have hlen : s.messages.length < step.1.messages.length := by
      rw [hstep]; simp
    rw [show final = run step.1 post from rfl,
      run_getElem?_preserved post step.1 _ hlen, hstep]
    simp
  · intro m
    simp [get_ai_enabled_messages, List.mem_filter]

/-- Claim C7: read-cursor semantics.  Immediately after `mark_as_read u`
the unread count of `u` is `0` and after any further operations that do
not mark `u` again it equals exactly the number of appends performed
since the mark (so it stays `0` until an append occurs); a user absent
from `user_last_read` has the implicit cursor `0`, making the whole log
unread. -/
theorem c7_read_cursor (pre post : List Op) (u : String)
    (hpost : Op.markRead u ∉ post) :
    get_unread_count (run (mark_as_read (run initHistory pre) u) post) u
        = post.countP isAppend
    ∧ (∀ q : ChatHistory, q.user_last_read.lookup u = none →
        get_unread_count q u = q.messages.length) := by
  constructor
  · have hc : cursorOf (run (mark_as_read (run initHistory pre) u) post) u
        = (run initHistory pre).messages.length := by
      rw [cursorOf_run post _ u hpost, cursorOf_mark_as_read_self]
    have hl : (run (mark_as_read (run initHistory pre) u) post).messages.length
        = (run initHistory pre).messages.length + post.countP isAppend := by
      rw [length_run]; rfl
    rw [get_unread_count, hc, hl]
    omega
  · intro q hq
    simp [get_unread_count, cursorOf, hq]

/-- Witness for C7 at a concrete trace: one message before the mark,
then two appends and a consent toggle after it, yielding an unread
count of exactly 2. -/
theorem c7_read_cursor_witness :
    get_unread_count
      (run (mark_as_read (run initHistory [Op.addMessage "A" "hi" "t1" none]) "A")
        [Op.addMessage "B" "x" "t2" none, Op.setAiEnabled false "t3",
         Op.addMessage "C" "y" "t4" none]) "A" = 2 :=
  ((c7_read_cursor [Op.addMessage "A" "hi" "t1" none]
    [Op.addMessage "B" "x" "t2" none, Op.setAiEnabled false "t3",
     Op.addMessage "C" "y" "t4" none] "A" (by decide)).1).trans (by decide)

/-- Claim C10: the summarize endpoint called with a username sets that
user's read cursor to the current log length as a side effect, so the
unread count is `0` afterwards; a call without a username returns the
state unchanged, so no cursor moves. -/
theorem c10_summary_marks_read (s : ChatHistory) (u : String) :
    get_unread_count (summarizeEndpoint (some u) s).2 u = 0
    ∧ cursorOf (summarizeEndpoint (some u) s).2 u = s.messages.length
    ∧ (summarizeEndpoint none s).2 = s := by
  refine ⟨?_, cursorOf_mark_as_read_self s u, rfl⟩
  show get_unread_count (mark_as_read s u) u = 0
  rw [get_unread_count, cursorOf_mark_as_read_self]
  exact Nat.sub_self _

-- ---- ConnectionManager (app/models/schemas.py, lines 146-188) ----

/-- Python dict assignment `d[k] = v`: replaces in place when the key is
present, else appends (insertion order preserved, as in CPython). -/
def dictSet {β : Type} (l : List (String × β)) (k : String) (v : β) :
    List (String × β) :=
  if l.any (fun p => p.1 == k) then
    l.map (fun p => if p.1 == k then (k, v) else p)
  else l ++ [(k, v)]

/-- `ConnectionManager` state (lines 149-151): the session registry,
`user_id -> transport handle` plus `user_id -> display name`.  Transport
handles are modelled as opaque numbers. -/
structure ConnectionManager where
  active_connections : List (String × Nat)
  user_names : List (String × String)
deriving DecidableEq, Repr

/-- `ConnectionManager.connect` (lines 153-157). -/
def connect (m : ConnectionManager) (ws : Nat) (user_id username : String) :
    ConnectionManager :=
  { active_connections := dictSet m.active_connections user_id ws
    user_names := dictSet m.user_names user_id username }

/-- `ConnectionManager.disconnect` (lines 159-163): `del` of the key
when present, modelled by filtering it out (a no-op for absent ids). -/
def disconnect (m : ConnectionManager) (user_id : String) :
    ConnectionManager :=
  { active_connections := m.active_connections.filter (fun p => p.1 ≠ user_id)
    user_names := m.user_names.filter (fun p => p.1 ≠ user_id) }

/-- `ConnectionManager.get_user_count` (lines 184-185). -/
def get_user_count (m : ConnectionManager) : Nat :=
  m.active_connections.length

/-- `ConnectionManager.broadcast` (lines 169-182).  `sendOk uid` models
whether `connection.send_json` for that session raises (the code
catches the exception, records the session, keeps delivering, and
disconnects the failed sessions after the loop).  Returns the list of
user ids actually delivered to, in iteration order, together with the
post-broadcast registry state; the function is total, so the broadcast
always completes. -/
def broadcast (m : ConnectionManager) (sendOk : String → Bool)
    (exclude_user_id : Option String) : List String × ConnectionManager :=
  let recipients := m.active_connections.filter
    (fun p => some p.1 ≠ exclude_user_id)
  let delivered := (recipients.filter (fun p => sendOk p.1)).map (fun p => p.1)
  let disconnected :=
    (recipients.filter (fun p => ¬ sendOk p.1 = true)).map (fun p => p.1)
  (delivered, disconnected.foldl disconnect m)

/-- Claim C5: broadcast isolation and eviction.  With three distinct
connected sessions and `S1` excluded: when every delivery succeeds the
event reaches exactly `S2` and `S3` and not `S1`; when delivery to `S2`
raises, `S3` still receives the event, the broadcast completes (it is a
total function returning a value), and afterwards `S2` is gone from the
registry, so the user count drops to 2 and `S2`'s connection is no
longer present. -/
theorem c5_broadcast_isolation (s1 s2 s3 : String) (c1 c2 c3 : Nat)
    (h12 : s1 ≠ s2) (h13 : s1 ≠ s3) (h23 : s2 ≠ s3) :
    let m : ConnectionManager :=
      { active_connections := [(s1, c1), (s2, c2), (s3, c3)]
        user_names := [(s1, s1), (s2, s2), (s3, s3)] }
    (broadcast m (fun _ => true) (some s1)).1 = [s2, s3]
    ∧ (broadcast m (fun u => u != s2) (some s1)).1 = [s3]
    ∧ (broadcast m (fun u => u != s2) (some s1)).2.active_connections
        = [(s1, c1), (s3, c3)]
    ∧ get_user_count (broadcast m (fun u => u != s2) (some s1)).2 = 2
    ∧ ((broadcast m (fun u => u != s2) (some s1)).2.active_connections.lookup s2
        = none) := by
  intro m
  have h21 : s2 ≠ s1 := h12.symm
  have h31 : s3 ≠ s1 := h13.symm
  have h32 : s3 ≠ s2 := h23.symm
  have hb32 : (s3 != s2) = true := by simp [h32]
  have he21 : (s2 == s1) = false := by simp [h21]
  have he23 : (s2 == s3) = false := by simp [h23]
  refine ⟨?_, ?_, ?_, ?_, ?_⟩ <;>
    simp [m, broadcast, disconnect, get_user_count, List.filter, List.lookup,
      h12, h13, h23, h21, h31, h32, hb32, he21, he23]

/-- Witness for C5 at concrete sessions "a", "b", "c". -/
theorem c5_broadcast_isolation_witness :
    (broadcast
      { active_connections := [("a", 1), ("b", 2), ("c", 3)]
        user_names := [("a", "a"), ("b", "b"), ("c", "c")] }
      (fun u => u != "b") (some "a")).1 = ["c"]
    ∧ get_user_count (broadcast
      { active_connections := [("a", 1), ("b", 2), ("c", 3)]
        user_names := [("a", "a"), ("b", "b"), ("c", "c")] }
      (fun u => u != "b") (some "a")).2 = 2 :=
  ⟨(c5_broadcast_isolation "a" "b" "c" 1 2 3 (by decide) (by decide)
      (by decide)).2.1,
   (c5_broadcast_isolation "a" "b" "c" 1 2 3 (by decide) (by decide)
      (by decide)).2.2.2.1⟩

-- ---- websocket inbound handling (app/api/endpoints/websocket.py) ----

/-- The audio marker prefix checked by `message_text.startswith("[AUDIO]: ")`
in websocket.py line 71. -/
def audioPrefix : String := "[AUDIO]: "

/-- The stored body of an inbound message (websocket.py lines 70-72): an
audio message (text starting with `"[AUDIO]: "`) is stored as the bare
placeholder `"[AUDIO]"`, everything else verbatim.  `startswith` is the
character-sequence prefix test. -/
def storedMessageOf (message_text : String) : String :=
  if audioPrefix.data.isPrefixOf message_text.data then "[AUDIO]"
  else message_text

/-- One iteration of the websocket receive loop (websocket.py lines
64-93): the (possibly cleaned) body is appended to the history stamped
with the current AI flag, while the broadcast payload carries the
original `message_text`.  Returns the new history state, the stored
event, and the body put in the broadcast payload. -/
def handleInboundMessage (s : ChatHistory) (username message_text ts : String) :
    ChatHistory × ChatMessage × String :=
  let stored := storedMessageOf message_text
  let step := add_message s username stored ts (some (get_ai_enabled s))
  (step.1, step.2, message_text)

/-- Claim C8: audio placeholder divergence.  For an inbound text starting
with `"[AUDIO]: "` the logged event's body is exactly `"[AUDIO]"` while
the broadcast payload carries the original full text, so the two differ;
any other text is stored verbatim (log body = broadcast body). -/
theorem c8_audio_placeholder (s : ChatHistory) (username t ts : String) :
    ((audioPrefix.data.isPrefixOf t.data = true →
        (handleInboundMessage s username t ts).2.1.message = "[AUDIO]"
        ∧ (handleInboundMessage s username t ts).2.2 = t
        ∧ (handleInboundMessage s username t ts).2.1.message
            ≠ (handleInboundMessage s username t ts).2.2)
      ∧ (audioPrefix.data.isPrefixOf t.data = false →
        (handleInboundMessage s username t ts).2.1.message = t
        ∧ (handleInboundMessage s username t ts).2.2 = t)) := by
  constructor
  · intro h
    have hb : storedMessageOf t = "[AUDIO]" := by
      rw [storedMessageOf, if_pos h]
    refine ⟨hb, rfl, ?_⟩
    show storedMessageOf t ≠ t
    rw [hb]
    intro he
    rw [List.isPrefixOf_iff_prefix] at h
    have hle := h.length_le
    rw [← he] at hle
    simp [audioPrefix] at hle
  · intro h
    have hb : storedMessageOf t = t := by
      rw [storedMessageOf, if_neg (by simp [h])]
    exact ⟨hb, rfl⟩

/-- Witness for C8: the audio message `"[AUDIO]: http://x/y.webm"` is
stored as `"[AUDIO]"` but broadcast in full, and `"hello"` is stored
verbatim. -/
theorem c8_audio_placeholder_witness :
    (handleInboundMessage initHistory "A" "[AUDIO]: http://x/y.webm" "t1").2.1.message
        = "[AUDIO]"
    ∧ (handleInboundMessage initHistory "A" "[AUDIO]: http://x/y.webm" "t1").2.2
        = "[AUDIO]: http://x/y.webm"
    ∧ (handleInboundMessage initHistory "A" "hello" "t1").2.1.message = "hello" :=
  ⟨((c8_audio_placeholder initHistory "A" "[AUDIO]: http://x/y.webm" "t1").1
      (by decide)).1,
   ((c8_audio_placeholder initHistory "A" "[AUDIO]: http://x/y.webm" "t1").1
      (by decide)).2.1,
   ((c8_audio_placeholder initHistory "A" "hello" "t1").2 (by decide)).1⟩

-- ---- chat summarizer skeleton (app/services/summarizer.py) ----

/-- Python's `l[-n:]` for `n > 0`: the last `n` elements. -/
def takeLast {α : Type} (l : List α) (n : Nat) : List α :=
  l.drop (l.length - n)

/-- The messages actually summarized by `generate_chat_summary`
(summarizer.py lines 38-54): system messages are filtered out first,
then the slice is limited to the last `total_messages` entries when
that argument is a positive number (`if total_messages and
total_messages > 0`). -/
def chatMessagesOf (messages : List ChatMessage) (total_messages : Option Int) :
    List ChatMessage :=
  let filtered := messages.filter (fun m => m.sender ≠ "System")
  match total_messages with
  | some t => if t > 0 then takeLast filtered t.toNat else filtered
  | none => filtered

/-- The participant set reported by `generate_chat_summary` (line 57),
modelled by the list of senders of the summarized slice (membership
matches the Python set). -/
def participantsOf (messages : List ChatMessage) (total_messages : Option Int) :
    List String :=
  (chatMessagesOf messages total_messages).map (fun m => m.sender)

/-- The `total_messages` count reported by `generate_chat_summary`
(line 56), used unchanged on the success and on both error paths. -/
def totalMessagesCountOf (messages : List ChatMessage)
    (total_messages : Option Int) : Nat :=
  (chatMessagesOf messages total_messages).length

/-- The messages rendered into the memory-extraction prompt
(`generate_memory_extraction`, summarizer.py lines 296-301): the
comprehension skips every message whose sender is `"System"`. -/
def extractionMessagesOf (messages : List ChatMessage) : List ChatMessage :=
  messages.filter (fun m => m.sender ≠ "System")

/-- Claim C9: system-sender exclusion.  Every message in the summarized
slice has a non-"System" sender, `"System"` is never in the reported
participant set, the reported `total_messages` count never exceeds the
number of non-system messages, and the memory-extraction prompt builder
likewise keeps only non-"System" messages. -/
theorem c9_system_sender_exclusion (messages : List ChatMessage)
    (total_messages : Option Int) :
    (∀ m ∈ chatMessagesOf messages total_messages, m.sender ≠ "System")
    ∧ "System" ∉ participantsOf messages total_messages
    ∧ totalMessagesCountOf messages total_messages
        ≤ (messages.filter (fun m => m.sender ≠ "System")).length
    ∧ (∀ m ∈ extractionMessagesOf messages, m.sender ≠ "System") := by
  have hsub : ∀ m ∈ chatMessagesOf messages total_messages,
      m ∈ messages.filter (fun m => m.sender ≠ "System") := by
    intro m hm
    rcases total_messages with _ | t
    · exact hm
    · by_cases ht : t > 0
      · have hm' : m ∈ takeLast
            (messages.filter (fun m => m.sender ≠ "System")) t.toNat := by
          simpa [chatMessagesOf, ht] using hm
        exact List.drop_subset _ _ hm'
      · simpa [chatMessagesOf, ht] using hm
  have hmem : ∀ m ∈ chatMessagesOf messages total_messages,
      m.sender ≠ "System" := by
    intro m hm
    have := (List.mem_filter.mp (hsub m hm)).2
    simpa using this
  refine ⟨hmem, ?_, ?_, ?_⟩
  · intro hmem'
    rw [participantsOf, List.mem_map] at hmem'
    obtain ⟨m, hm, hs⟩ := hmem'
    exact hmem m hm hs
  · rw [totalMessagesCountOf]
    rcases total_messages with _ | t
    · exact le_refl _
    · by_cases ht : t > 0
      · have heq : chatMessagesOf messages (some t)
            = takeLast (messages.filter (fun m => m.sender ≠ "System"))
                t.toNat := by
          simp [chatMessagesOf, ht]
        rw [heq, takeLast, List.length_drop]
        exact Nat.sub_le _ _
      · have heq : chatMessagesOf messages (some t)
            = messages.filter (fun m => m.sender ≠ "System") := by
          simp [chatMessagesOf, ht]
        rw [heq]
  · intro m hm
    have := (List.mem_filter.mp hm).2
    simpa using this

/-- Witness for C9 at a concrete log: the one message of the summarized
slice indeed has a non-System sender. -/
theorem c9_system_sender_exclusion_witness :
    ({ sender := "A", message := "x", timestamp := "t", message_id := "0"
       ai_enabled := true } : ChatMessage).sender ≠ "System" :=
  (c9_system_sender_exclusion
    [{ sender := "A", message := "x", timestamp := "t", message_id := "0"
       ai_enabled := true }] none).1
    { sender := "A", message := "x", timestamp := "t", message_id := "0"
      ai_enabled := true } (by decide)

-- ---- memory service (app/services/memory_service.py) ----

/-- A message dict as consumed by the upsert helpers: sender, body,
timestamp, and an optional `user_id` key (`m.get("user_id")` — messages
coming from `ChatHistory` dicts have no such key, hence `none`). -/
structure MMsg where
  sender : String
  message : String
  timestamp : String
  user_id : Option String
deriving DecidableEq, Repr

/-- The parsed output of the structured-extraction LLM call
(`generate_memory_extraction`): the lists read with `.get(key, [])`
from the parsed JSON; a failed call or malformed output is the empty
dict, i.e. every field empty.  FAQ entries are (question, answer) pairs
(the code reads them with defaults, so both components are present). -/
structure Extraction where
  decisions : List String
  tasks : List String
  facts : List String
  faqs : List (String × String)
deriving DecidableEq, Repr

/-- One memory dict produced by `_build_memories_from_messages`
(memory_service.py lines 193-201). -/
structure Memory where
  memory_type : String
  summary_text : String
  time_from : Option String
  time_to : Option String
  tags : List String
  confidence : ℚ
deriving DecidableEq, Repr

/-- The `lines` accumulated by `_build_memories_from_messages`
(memory_service.py lines 131-186): the specialized sections per chat
type, else the `[Overview]` fallback when no section produced content
(`has_specialized_content` is exactly "some section line was added"). -/
def memoryLines (chat_type : String) (ex : Extraction) (overview : String) :
    List String :=
  let specialized :=
    if chat_type = "individual" then
      (if ex.decisions.isEmpty then []
        else "[Decisions]" :: ex.decisions.map (fun d => "- " ++ d))
      ++ (if ex.tasks.isEmpty then []
        else "\n[Tasks & Deadlines]" :: ex.tasks.map (fun t => "- " ++ t))
      ++ (if ex.facts.isEmpty then []
        else "\n[Important Facts]" :: ex.facts.map (fun f => "- " ++ f))
    else if chat_type = "group" then
      (if ex.decisions.isEmpty then []
        else "[Decisions]" :: ex.decisions.map (fun d => "- " ++ d))
      ++ (if ex.faqs.isEmpty then []
        else "\n[FAQs]" ::
          (ex.faqs.map (fun qa => ["Q: " ++ qa.1, "A: " ++ qa.2, ""])).flatten)
    else []
  if ¬ specialized.isEmpty then specialized
  else if overview.isEmpty then [] else ["[Overview]\n" ++ overview]

/-- Python's `str.strip()`: drop leading and trailing whitespace,
stated on the character sequence. -/
def pyStrip (s : String) : String :=
  ⟨((s.data.dropWhile Char.isWhitespace).reverse.dropWhile
      Char.isWhitespace).reverse⟩

/-- `_build_memories_from_messages` (memory_service.py lines 102-201).
The two LLM collaborator calls are the oracle parameters: `summaryOracle`
is the `"summary"` field of `generate_chat_summary` and
`extractionOracle` the parsed `generate_memory_extraction` output (both
already degraded to defaults on failure).  Returns the (zero-or-one
element) list of memories. -/
def buildMemoriesFromMessages (messages : List MMsg) (chat_type : String)
    (summaryOracle : List MMsg → String)
    (extractionOracle : List MMsg → Extraction) : List Memory :=
  match messages with
  | [] => []
  | m0 :: _ =>
    let overview := summaryOracle messages
    let ex := extractionOracle messages
    let lines := memoryLines chat_type ex overview
    let full_text := pyStrip (String.intercalate "\n" lines)
    if full_text = "" then []
    else
      [{ memory_type := "conversation_summary"
         summary_text := full_text
         time_from := some m0.timestamp
         time_to := (messages.getLast?).map (fun m => m.timestamp)
         tags := ["summary", "comprehensive", chat_type]
         confidence := 1 }]

/-- Lexicographic code-point comparison of character sequences, i.e.
Python's `<=` on strings (used by `sorted`). -/
def lexLe : List Char → List Char → Bool
  | [], _ => true
  | _ :: _, [] => false
  | a :: as, b :: bs =>
      if a < b then true else if a = b then lexLe as bs else false

/-- `sorted([user1_id, user2_id])` over two strings. -/
def sortedPair (a b : String) : String × String :=
  if lexLe a.data b.data then (a, b) else (b, a)

/-- The stable 1:1 chat id (memory_service.py lines 226-227). -/
def individualChatId (user1_id user2_id : String) : String :=
  let p := sortedPair user1_id user2_id
  "individual:" ++ p.1 ++ ":" ++ p.2

/-- The deterministic point identity of a 1:1 memory (memory_service.py
lines 265-268): `uuid5(NAMESPACE_DNS, id_seed)` is a fixed deterministic
function of the seed string `f"{chat_id}:{user1_name}:{user2_name}"`,
so identities are modelled by the seed itself — two point identities
are equal exactly when their seeds are. -/
def individualPointId (user1_id user1_name user2_id user2_name : String) :
    String :=
  individualChatId user1_id user2_id ++ ":" ++ user1_name ++ ":" ++ user2_name

/-- The group chat id (memory_service.py line 304). -/
def groupChatId (group_id : String) : String :=
  "group:" ++ group_id

/-- The deterministic point identity of a group memory (memory_service.py
lines 338-340): the seed is `f"{chat_id}:{group_name}"` — note that the
participants play no part in it. -/
def groupPointId (group_id group_name : String) : String :=
  groupChatId group_id ++ ":" ++ group_name

/-- The sender-rename pass (memory_service.py lines 230-237 and
307-314): a message whose `user_id` is a key of the current-name dict
gets its sender replaced by the current name (last binding wins, as for
a Python dict literal), all other messages pass through unchanged. -/
def mapSenders (current_names : List (String × String))
    (messages : List MMsg) : List MMsg :=
  messages.map (fun m =>
    match m.user_id with
    | some uid =>
        match (current_names.reverse).lookup uid with
        | some nm => { m with sender := nm }
        | none => m
    | none => m)

/-- The payload stored with a 1:1 memory point (memory_service.py
lines 246-263). -/
structure IndividualPayload where
  chat_id : String
  chat_type : String
  sender_user_id : String
  sender_name : String
  receiver_user_id : String
  receiver_name : String
  participant_ids : List String
  participants : List (String × String)
  memory_type : String
  summary_text : String
  time_from : Option String
  time_to : Option String
  tags : List String
  confidence : ℚ
deriving DecidableEq, Repr

/-- The payload stored with a group memory point (memory_service.py
lines 324-336). -/
structure GroupPayload where
  group_id : String
  group_name : String
  chat_id : String
  chat_type : String
  participant_ids : List String
  participants : List (String × String)
  memory_type : String
  summary_text : String
  time_from : Option String
  time_to : Option String
  tags : List String
  confidence : ℚ
deriving DecidableEq, Repr

/-- A `PointStruct` for the individual collection. -/
structure IndividualPoint where
  id : String
  vector : List Int
  payload : IndividualPayload
deriving DecidableEq, Repr

/-- A `PointStruct` for the group collection. -/
structure GroupPoint where
  id : String
  vector : List Int
  payload : GroupPayload
deriving DecidableEq, Repr

/-- The calls an upsert helper issues against the vector-store
collaborator: the idempotent ensure-collections step
(`ensure_collections_exist`, which performs `collection_exists` /
`create_payload_index` requests) and the actual `client.upsert`. -/
inductive VSCall where
  | ensureCollections
  | upsertIndividual (points : List IndividualPoint)
  | upsertGroup (points : List GroupPoint)
deriving DecidableEq, Repr

/-- `upsert_individual_chat_memories` (memory_service.py lines
206-282), returning the upserted count together with the ordered list
of vector-store calls it makes.  `ensure_collections_exist()` runs
before the empty-log check; `embed` models `embed_text`. -/
def upsertIndividualModel (user1_id user1_name user2_id user2_name : String)
    (messages : List MMsg)
    (summaryOracle : List MMsg → String)
    (extractionOracle : List MMsg → Extraction)
    (embed : String → List Int) : Nat × List VSCall :=
  let calls0 : List VSCall := [VSCall.ensureCollections]
  if messages.isEmpty then (0, calls0)
  else
    let chat_id := individualChatId user1_id user2_id
    let current_names := [(user1_id, user1_name), (user2_id, user2_name)]
    let mapped := mapSenders current_names messages
    let memories :=
      buildMemoriesFromMessages mapped "individual" summaryOracle
        extractionOracle
    if memories.isEmpty then (0, calls0)
    else
      let points := memories.map (fun mem =>
        { id := individualPointId user1_id user1_name user2_id user2_name
          vector := embed mem.summary_text
          payload :=
            { chat_id := chat_id
              chat_type := "individual"
              sender_user_id := user1_id
              sender_name := user1_name
              receiver_user_id := user2_id
              receiver_name := user2_name
              participant_ids := [user1_id, user2_id]
              participants := [(user1_id, user1_name), (user2_id, user2_name)]
              memory_type := mem.memory_type
              summary_text := mem.summary_text
              time_from := mem.time_from
              time_to := mem.time_to
              tags := mem.tags
              confidence := mem.confidence } : IndividualPoint })
      (points.length, calls0 ++ [VSCall.upsertIndividual points])

/-- `upsert_group_chat_memories` (memory_service.py lines 285-354),
returning the upserted count together with the ordered list of
vector-store calls it makes.  `participants` is the list of
`{"user_id", "name"}` dicts as (id, name) pairs. -/
def upsertGroupModel (group_id group_name : String)
    (participants : List (String × String))
    (messages : List MMsg)
    (summaryOracle : List MMsg → String)
    (extractionOracle : List MMsg → Extraction)
    (embed : String → List Int) : Nat × List VSCall :=
  let calls0 : List VSCall := [VSCall.ensureCollections]
  if messages.isEmpty then (0, calls0)
  else
    let chat_id := groupChatId group_id
    let mapped := mapSenders participants messages
    let memories :=
      buildMemoriesFromMessages mapped "group" summaryOracle extractionOracle
    if memories.isEmpty then (0, calls0)
    else
      let points := memories.map (fun mem =>
        { id := groupPointId group_id group_name
          vector := embed mem.summary_text
          payload :=
            { group_id := group_id
              group_name := group_name
              chat_id := chat_id
              chat_type := "group"
              participant_ids := participants.map (fun p => p.1)
              participants := participants
              memory_type := mem.memory_type
              summary_text := mem.summary_text
              time_from := mem.time_from
              time_to := mem.time_to
              tags := mem.tags
              confidence := mem.confidence } : GroupPoint })
      (points.length, calls0 ++ [VSCall.upsertGroup points])

/-- The point identities carried by a list of vector-store calls. -/
def pointIdsOf (calls : List VSCall) : List String :=
  (calls.map (fun c =>
    match c with
    | VSCall.ensureCollections => []
    | VSCall.upsertIndividual pts => pts.map (fun p => p.id)
    | VSCall.upsertGroup pts => pts.map (fun p => p.id))).flatten

-- concrete collaborator behaviours used to instantiate the upsert
-- models on closed inputs

/-- A sample log handed to the upsert helpers. -/
def demoMsgs : List MMsg :=
  [{ sender := "Alice", message := "we decided X", timestamp := "t1"
     user_id := some "u1" }]

/-- A summary oracle returning a fixed overview. -/
def demoSummaryOracle : List MMsg → String := fun _ => "S"

/-- An extraction oracle returning one decision. -/
def demoExtractionOracle : List MMsg → Extraction :=
  fun _ => { decisions := ["X"], tasks := [], facts := [], faqs := [] }

/-- A trivial embedding collaborator. -/
def demoEmbed : String → List Int := fun _ => [0]

-- ---- string concatenation cancellation helpers ----

theorem string_append_cancel_left (s t₁ t₂ : String) (h : s ++ t₁ = s ++ t₂) :
    t₁ = t₂ := by
  have hd : s.data ++ t₁.data = s.data ++ t₂.data := by
    rw [← String.data_append, ← String.data_append, h]
  exact String.ext (List.append_cancel_left hd)

theorem string_append_cancel_right (s₁ s₂ t : String)
    (h : s₁ ++ t = s₂ ++ t) : s₁ = s₂ := by
  have hd : s₁.data ++ t.data = s₂.data ++ t.data := by
    rw [← String.data_append, ← String.data_append, h]
  exact String.ext (List.append_cancel_right hd)

/-- Every point a group refresh stores carries the identity derived
from the group id and group display name alone. -/
theorem upsertGroupModel_pointIds (g gn : String)
    (ps : List (String × String)) (msgs : List MMsg)
    (so : List MMsg → String) (eo : List MMsg → Extraction)
    (em : String → List Int) :
    ∀ pid ∈ pointIdsOf (upsertGroupModel g gn ps msgs so eo em).2,
      pid = groupPointId g gn := by
  intro pid hpid
  by_cases hm : msgs.isEmpty
  · simp [upsertGroupModel, hm, pointIdsOf] at hpid
  · by_cases hmem :
        (buildMemoriesFromMessages (mapSenders ps msgs) "group" so eo).isEmpty
    · simp [upsertGroupModel, hm, hmem, pointIdsOf] at hpid
    · simp [upsertGroupModel, hm, hmem, pointIdsOf] at hpid
      exact hpid.2.symm

/-- Every point an individual refresh stores carries the identity
derived from the chat id and both current display names. -/
theorem upsertIndividualModel_pointIds (u1 n1 u2 n2 : String)
    (msgs : List MMsg) (so : List MMsg → String)
    (eo : List MMsg → Extraction) (em : String → List Int) :
    ∀ pid ∈ pointIdsOf (upsertIndividualModel u1 n1 u2 n2 msgs so eo em).2,
      pid = individualPointId u1 n1 u2 n2 := by
  intro pid hpid
  by_cases hm : msgs.isEmpty
  · simp [upsertIndividualModel, hm, pointIdsOf] at hpid
  · by_cases hmem :
        (buildMemoriesFromMessages
          (mapSenders [(u1, n1), (u2, n2)] msgs) "individual" so eo).isEmpty
    · simp [upsertIndividualModel, hm, hmem, pointIdsOf] at hpid
    · simp [upsertIndividualModel, hm, hmem, pointIdsOf] at hpid
      exact hpid.2.symm

/-- Claim C2 counterexample: refreshing the same group ("g1", display
name "Team") over the same log with a participant's display name
changed from "Alice" to "Alicia" stores a point with the SAME identity
`"group:g1:Team"` both times — the claim says the identity would
differ. -/
theorem c2_identity_counterexample :
    pointIdsOf (upsertGroupModel "g1" "Team" [("u1", "Alice"), ("u2", "Bob")]
        demoMsgs demoSummaryOracle demoExtractionOracle demoEmbed).2
      = ["group:g1:Team"]
    ∧ pointIdsOf (upsertGroupModel "g1" "Team" [("u1", "Alicia"), ("u2", "Bob")]
        demoMsgs demoSummaryOracle demoExtractionOracle demoEmbed).2
      = ["group:g1:Team"]
    ∧ ("Alice" : String) ≠ "Alicia" :=
  ⟨by decide, by decide, by decide⟩

/-- Claim C2 (amended): the stored point identity is a deterministic
hash of the conversation identity and current display name(s) in this
sense: for `refreshIndividual` it is sensitive to each of the two
participants' display names (changing either one, with the conversation
identity unchanged, changes the identity), while for `refreshGroup` it
is sensitive to the group's display name only — every point a group
refresh stores has the identity derived from the group id and group
name, regardless of the participants and their display names. -/
theorem c2_identity_sensitivity_amended (u1 u2 g : String)
    (n1 n1' n2 n2' gn gn' : String) (ps : List (String × String))
    (msgs : List MMsg) (so : List MMsg → String)
    (eo : List MMsg → Extraction) (em : String → List Int)
    (h1 : n1 ≠ n1') (h2 : n2 ≠ n2') (hg : gn ≠ gn') :
    individualPointId u1 n1 u2 n2 ≠ individualPointId u1 n1' u2 n2
    ∧ individualPointId u1 n1 u2 n2 ≠ individualPointId u1 n1 u2 n2'
    ∧ groupPointId g gn ≠ groupPointId g gn'
    ∧ (∀ pid ∈ pointIdsOf (upsertGroupModel g gn ps msgs so eo em).2,
        pid = groupPointId g gn) := by
  refine ⟨?_, ?_, ?_, upsertGroupModel_pointIds g gn ps msgs so eo em⟩
  · intro heq
    rw [individualPointId, individualPointId] at heq
    have h' := string_append_cancel_right _ _ _ heq
    have h'' := string_append_cancel_right _ _ _ h'
    exact h1 (string_append_cancel_left _ _ _ h'')
  · intro heq
    rw [individualPointId, individualPointId] at heq
    exact h2 (string_append_cancel_left _ _ _ heq)
  · intro heq
    rw [groupPointId, groupPointId] at heq
    exact hg (string_append_cancel_left _ _ _ heq)

/-- Witness for the amended C2 at concrete names. -/
theorem c2_identity_sensitivity_amended_witness :
    individualPointId "u1" "Alice" "u2" "Bob"
        ≠ individualPointId "u1" "Alicia" "u2" "Bob"
    ∧ groupPointId "g1" "Team" ≠ groupPointId "g1" "Crew" :=
  ⟨(c2_identity_sensitivity_amended "u1" "u2" "g1" "Alice" "Alicia" "Bob"
      "Bobby" "Team" "Crew" [] demoMsgs demoSummaryOracle
      demoExtractionOracle demoEmbed (by decide) (by decide) (by decide)).1,
   (c2_identity_sensitivity_amended "u1" "u2" "g1" "Alice" "Alicia" "Bob"
      "Bobby" "Team" "Crew" [] demoMsgs demoSummaryOracle
      demoExtractionOracle demoEmbed (by decide) (by decide)
      (by decide)).2.2.1⟩

/-- Claim C3: idempotent upsert.  Two `refreshIndividual` calls with
identical user ids, identical display names, an unchanged log and the
same collaborator behaviour compute equal results (same deterministic
point identity, same stored payload — the pipeline draws no fresh
randomness), and every stored point's identity is the deterministic
function of the ids and names alone, independent of the log contents. -/
theorem c3_idempotent_upsert (u1 n1 u2 n2 : String) (msgs : List MMsg)
    (so : List MMsg → String) (eo : List MMsg → Extraction)
    (em : String → List Int) :
    upsertIndividualModel u1 n1 u2 n2 msgs so eo em
        = upsertIndividualModel u1 n1 u2 n2 msgs so eo em
    ∧ (∀ pid ∈ pointIdsOf (upsertIndividualModel u1 n1 u2 n2 msgs so eo em).2,
        pid = individualPointId u1 n1 u2 n2) :=
  ⟨rfl, upsertIndividualModel_pointIds u1 n1 u2 n2 msgs so eo em⟩

/-- Witness for C3: the concrete refresh stores the point under the
deterministic identity `"individual:u1:u2:Alice:Bob"`. -/
theorem c3_idempotent_upsert_witness :
    ("individual:u1:u2:Alice:Bob" : String)
      = individualPointId "u1" "Alice" "u2" "Bob" :=
  (c3_idempotent_upsert "u1" "Alice" "u2" "Bob" demoMsgs demoSummaryOracle
    demoExtractionOracle demoEmbed).2 "individual:u1:u2:Alice:Bob" (by decide)

/-- Claim C4 counterexample: `refreshGroup` on an empty consent-filtered
log does return an upserted count of 0, but it still makes a
vector-store call — `ensure_collections_exist()` (which issues
`collection_exists`/`create_payload_index` requests) runs before the
empty-log check, so the call list is not empty as the claim requires. -/
theorem c4_vector_store_call_counterexample :
    upsertGroupModel "g1" "Team" [("u1", "Alice")] [] demoSummaryOracle
        demoExtractionOracle demoEmbed = (0, [VSCall.ensureCollections])
    ∧ ([VSCall.ensureCollections] : List VSCall) ≠ [] :=
  ⟨rfl, by decide⟩

/-- Claim C4 (amended): distilling an empty event list returns no
memory record, and `refreshGroup` on an empty consent-filtered log
returns an upserted count of 0 without making any `upsert` call to the
vector store — its only vector-store interaction is the idempotent
ensure-collections step that runs on every refresh. -/
theorem c4_empty_input_amended (g gn ct : String)
    (ps : List (String × String)) (so : List MMsg → String)
    (eo : List MMsg → Extraction) (em : String → List Int) :
    buildMemoriesFromMessages [] ct so eo = []
    ∧ upsertGroupModel g gn ps [] so eo em = (0, [VSCall.ensureCollections]) :=
  ⟨rfl, rfl⟩

-- ---- RAG answer synthesis (summarizer.py, generate_rag_answer) ----

/-- A retrieved memory payload as read by `generate_rag_answer`
(summarizer.py lines 390-399): participant names (each dict may lack
the `"name"` key, hence `Option`), the `time_range.from` value when
present, and the summary text. -/
structure RagMemory where
  participants : List (Option String)
  time_from : Option String
  summary_text : String
deriving DecidableEq, Repr

/-- The rendered label of retrieved payload number `i` (line 396):
the text Source i+1, then in parentheses the comma-joined participant
names, a dash, and the time-range start, with the fallback text
Unknown Date when the time range has no start. -/
def sourceLabel (i : Nat) (mem : RagMemory) : String :=
  let names := mem.participants.filterMap id
  "Source " ++ toString (i + 1) ++ " (" ++ String.intercalate ", " names
    ++ " - " ++ mem.time_from.getD "Unknown Date" ++ ")"

/-- The labels of all retrieved payloads, in order. -/
def sourceLabels (context_memories : List RagMemory) : List String :=
  context_memories.enum.map (fun p => sourceLabel p.1 p.2)

/-- The parsed JSON object a successful LLM call yields (lines 440-444):
either key may be missing, in which case the code fills a fallback. -/
structure RagJson where
  answer : Option String
  sources : Option (List String)
deriving DecidableEq, Repr

/-- The result of `generate_rag_answer`. -/
structure RagResult where
  answer : String
  sources : List String
deriving DecidableEq, Repr

/-- `generate_rag_answer` (summarizer.py lines 376-450).  The LLM
collaborator is the oracle `llm query context`: `none` models a raised
call or unparseable output (the `except` path), `some j` a parsed JSON
object.  The returned flag records whether the collaborator was
invoked. -/
def generateRagAnswer (query : String) (context_memories : List RagMemory)
    (llm : String → List RagMemory → Option RagJson) : RagResult × Bool :=
  if context_memories.isEmpty then
    ({ answer := "I couldn't find any relevant information in your memories to answer that question."
       sources := [] }, false)
  else
    let sources := sourceLabels context_memories
    match llm query context_memories with
    | none =>
        ({ answer := "I encountered an error trying to generate an answer."
           sources := [] }, true)
    | some j =>
        ({ answer := j.answer.getD "Error generating answer format."
           sources := j.sources.getD sources }, true)

/-- A retrieved payload used to instantiate the RAG model on closed
inputs. -/
def demoRagContext : List RagMemory :=
  [{ participants := [some "Bob"], time_from := some "2026-02-03"
     summary_text := "text" }]

/-- Claim C6 counterexample: with one retrieved payload and a failing
LLM call, the result's sources are empty even though the rendered
source labels are not — the claim says they would still be populated. -/
theorem c6_error_sources_counterexample :
    (generateRagAnswer "q" demoRagContext (fun _ _ => none)).1.sources = []
    ∧ sourceLabels demoRagContext = ["Source 1 (Bob - 2026-02-03)"]
    ∧ sourceLabels demoRagContext ≠ [] :=
  ⟨rfl, by decide, by decide⟩

/-- Claim C6 (amended): on an empty list of retrieved payloads,
`generate_rag_answer` returns the fixed "no relevant memory found"
answer with empty sources and never invokes the LLM collaborator; on a
non-empty list, if the LLM call or its output parsing fails the result
is the fixed error answer with EMPTY sources (the rendered labels are
discarded); the rendered source labels are used as the sources only
when the call returns a parseable object that merely lacks the
`"sources"` key. -/
theorem c6_rag_failure_amended (query : String)
    (context_memories : List RagMemory)
    (llm : String → List RagMemory → Option RagJson) (j : RagJson) :
    (context_memories = [] →
      generateRagAnswer query context_memories llm
        = ({ answer := "I couldn't find any relevant information in your memories to answer that question."
             sources := [] }, false))
    ∧ (context_memories ≠ [] → llm query context_memories = none →
      generateRagAnswer query context_memories llm
        = ({ answer := "I encountered an error trying to generate an answer."
             sources := [] }, true))
    ∧ (context_memories ≠ [] → llm query context_memories = some j →
        j.sources = none →
      (generateRagAnswer query context_memories llm).1.sources
        = sourceLabels context_memories) := by
  refine ⟨?_, ?_, ?_⟩
  · intro h
    simp [generateRagAnswer, h]
  · intro h hnone
    rw [generateRagAnswer, if_neg (by simp [h]), hnone]
  · intro h hsome hns
    rw [generateRagAnswer, if_neg (by simp [h]), hsome]
    simp [hns]

/-- Witness for the amended C6, exercising all three branches on
concrete inputs. -/
theorem c6_rag_failure_amended_witness :
    generateRagAnswer "q" [] (fun _ _ => none)
      = ({ answer := "I couldn't find any relevant information in your memories to answer that question."
           sources := [] }, false)
    ∧ generateRagAnswer "q" demoRagContext (fun _ _ => none)
      = ({ answer := "I encountered an error trying to generate an answer."
           sources := [] }, true)
    ∧ (generateRagAnswer "q" demoRagContext
        (fun _ _ => some { answer := some "A", sources := none })).1.sources
      = sourceLabels demoRagContext :=
  ⟨(c6_rag_failure_amended "q" []
      (fun _ _ => none) { answer := none, sources := none }).1 rfl,
   (c6_rag_failure_amended "q" demoRagContext
      (fun _ _ => none) { answer := none, sources := none }).2.1
      (by decide) rfl,
   (c6_rag_failure_amended "q" demoRagContext
      (fun _ _ => some { answer := some "A", sources := none })
      { answer := some "A", sources := none }).2.2
      (by decide) rfl rfl⟩

end ChatApp
